import Mathlib

/-
  Verification of the beambending module (src/beambending/beam.py).

  The module models a simply supported one-dimensional beam: loads are
  stored in a list, distributed loads are turned into three-branch
  piecewise functions, reaction forces are obtained from the 3x3 static
  equilibrium system, and shear-force and bending-moment terms are
  produced by symbolic integration.

  Shallow embedding choices:
  * Python floats are modelled by rationals; every computation in the
    module is exact on the inputs considered (small integers), so the
    rational model coincides with the float run of the doctest.
  * A sympy expression for a distributed-load intensity is modelled by a
    polynomial given as its coefficient list (index i holds the
    coefficient of x^i); sympy integrates such expressions exactly, and
    the closed forms below are those exact integrals.
  * A sympy Piecewise((0, x < a), (0, x > b), (expr, True)) object is
    modelled by the record PW3 with evaluation following the first-match
    branch semantics of sympy.
  * The symbolic objects stored in the shear and moment lists are
    modelled syntactically (ShearTerm, MomentTerm) together with their
    evaluation semantics.
  * Raising an exception is modelled by an error value; where the Python
    code mutates state before raising, the embedding returns the mutated
    state together with the error value.
-/

/-- Polynomial with rational coefficients, as its coefficient list:
entry i is the coefficient of x to the power i. -/
abbrev QPoly := List ℚ

/-- Horner evaluation of a coefficient list at a point. -/
def polyEval : QPoly → ℚ → ℚ
  | [], _ => 0
  | c :: cs, x => c + x * polyEval cs x

/-- Auxiliary recursion for the antiderivative: divides the coefficient of
x to the power n by n + 1. -/
def polyAntiderAux : QPoly → ℕ → QPoly
  | [], _ => []
  | c :: cs, n => c / ((n : ℚ) + 1) :: polyAntiderAux cs (n + 1)

/-- Antiderivative (with zero constant term) of a coefficient list. -/
def polyAntider (p : QPoly) : QPoly := 0 :: polyAntiderAux p 0

/-- Pointwise sum of two coefficient lists. -/
def polyAdd : QPoly → QPoly → QPoly
  | [], q => q
  | p, [] => p
  | a :: as, b :: bs => (a + b) :: polyAdd as bs

/-- Product of two coefficient lists. -/
def polyMul : QPoly → QPoly → QPoly
  | [], _ => []
  | a :: as, q => polyAdd (q.map (fun b => a * b)) (0 :: polyMul as q)

/-- Composition p(x - c) of a polynomial with a shifted variable; this is
the model of the sympy call expr.subs(x, x - x0). -/
def polySubShift : QPoly → ℚ → QPoly
  | [], _ => []
  | a :: as, c => polyAdd [a] (polyMul [-c, 1] (polySubShift as c))

/-- PointLoad namedtuple of the source: fields force and coord
(beam.py line 29). -/
structure PointLoad where
  force : ℚ
  coord : ℚ
deriving DecidableEq

/-- DistributedLoad namedtuple of the source: fields expr and span
(beam.py line 38).  The intensity expression is modelled as a
polynomial coefficient list; span is the application interval. -/
structure DistributedLoad where
  expr : QPoly
  span : ℚ × ℚ
deriving DecidableEq

/-- PointTorque object as defined by the test module of the repository: a
scalar magnitude applied at a coordinate.  The beam module itself defines
no such class; the object only appears here as a value of a kind that the
isinstance check of add_loads does not recognise. -/
structure PointTorque where
  magnitude : ℚ
  x_coord : ℚ
deriving DecidableEq

/-- DistributedLoad construction.  In the source the class is a bare
namedtuple subclass with no constructor of its own, so construction never
validates the interval and never fails; the Except form makes the
absence of a failure path explicit for statements about it. -/
def mkDistributedLoad (e : QPoly) (left right : ℚ) : Except String DistributedLoad :=
  Except.ok { expr := e, span := (left, right) }

/-- Loads stored in the internal list of a beam: add_loads only ever
appends PointLoad or DistributedLoad objects. -/
inductive Load where
  | point (p : PointLoad)
  | dist (d : DistributedLoad)
deriving DecidableEq

/-- Values that a caller may pass inside the list given to add_loads.
Python is dynamically typed, so the argument list can hold objects of any
class; the kinds relevant to the claims are point loads, distributed
loads, point torques, and an arbitrary other object. -/
inductive PyObj where
  | pointLoad (p : PointLoad)
  | distributedLoad (d : DistributedLoad)
  | pointTorque (t : PointTorque)
  | other
deriving DecidableEq

/-- Exceptions that can escape add_loads: the TypeError raised on an
unrecognised load object (beam.py line 131), and the LinAlgError raised
by numpy when the equilibrium matrix is singular, i.e. when the two
supports coincide (beam.py line 161). -/
inductive PyErr where
  | typeError
  | linAlgError
deriving DecidableEq

/-- Three-branch piecewise value produced by create_distributed_force,
the model of sympy.Piecewise((0, x < a), (0, x > b), (p, True))
(beam.py line 339). -/
structure PW3 where
  a : ℚ
  b : ℚ
  p : QPoly
deriving DecidableEq

/-- Evaluation of the three-branch piecewise with the first-match branch
semantics of sympy.Piecewise: zero strictly below a, zero strictly above
b, and the polynomial value in between (both endpoints included). -/
def pw3Eval (pw : PW3) (x : ℚ) : ℚ :=
  if x < pw.a then 0 else if pw.b < x then 0 else polyEval pw.p x

/-- Clamp of a point into the interval from a to b. -/
def clampI (a b s : ℚ) : ℚ := min (max s a) b

/-- Exact definite integral of the three-branch piecewise from u to t,
the model of sympy.integrate(pw, (x, u, t)).  The function
s maps to polyEval (polyAntider p) (clampI a b s) is a continuous
antiderivative of the piecewise on the whole line (constant outside the
support, the polynomial antiderivative inside), so the oriented integral
is its difference at the endpoints. -/
def pw3Integrate (pw : PW3) (u t : ℚ) : ℚ :=
  polyEval (polyAntider pw.p) (clampI pw.a pw.b t)
    - polyEval (polyAntider pw.p) (clampI pw.a pw.b u)

/-- Exact definite integral of x times the three-branch piecewise from u
to t, the model of sympy.integrate(pw * x, (x, u, t)) used for the
resultant moment.  Multiplying the polynomial by x prepends a zero
coefficient. -/
def pw3IntegrateX (pw : PW3) (u t : ℚ) : ℚ :=
  polyEval (polyAntider (0 :: pw.p)) (clampI pw.a pw.b t)
    - polyEval (polyAntider (0 :: pw.p)) (clampI pw.a pw.b u)

/-- Symbolic shear-force term stored in the internal shear list, in the
two forms the source creates: the running integral of a distributed-force
piecewise from x0 (beam.py line 314), and the step produced by
shear_from_pointload for a point load or a reaction (beam.py line 353). -/
inductive ShearTerm where
  | fromDist (x0 : ℚ) (pw : PW3)
  | step (value : ℚ) (coord : ℚ)
deriving DecidableEq

/-- Evaluation of a shear-force term.  The step mirrors
sympy.Piecewise((0, x < coord), (value, True)). -/
def shearEval : ShearTerm → ℚ → ℚ
  | ShearTerm.fromDist u pw, t => pw3Integrate pw u t
  | ShearTerm.step v c, t => if t < c then 0 else v

/-- Symbolic bending-moment term stored in the internal moment list: the
running integral of a shear term from x0 (beam.py line 319). -/
structure MomentTerm where
  x0 : ℚ
  s : ShearTerm
deriving DecidableEq

/-- Continuous antiderivative of the running-integral-of-a-piecewise
function s maps to polyEval (polyAntider p) (clampI a b s), valid when
a is at most b: the second polynomial antiderivative inside the support,
extended affinely outside it. -/
def pw3IntegralPrim (pw : PW3) (s : ℚ) : ℚ :=
  polyEval (polyAntider (polyAntider pw.p)) (clampI pw.a pw.b s)
    + polyEval (polyAntider pw.p) pw.a * (min s pw.a - pw.a)
    + polyEval (polyAntider pw.p) pw.b * (max s pw.b - pw.b)

/-- Evaluation of a bending-moment term: the exact value of the running
integral of the shear term from its x0.  For a reversed support interval
the piecewise is identically zero and so are its running integrals. -/
def momentEval (m : MomentTerm) (t : ℚ) : ℚ :=
  match m.s with
  | ShearTerm.step v c => v * (max t c - max m.x0 c)
  | ShearTerm.fromDist u pw =>
      if pw.a ≤ pw.b then
        (pw3IntegralPrim pw t - pw3IntegralPrim pw m.x0)
          - polyEval (polyAntider pw.p) (clampI pw.a pw.b u) * (t - m.x0)
      else 0

/-- Beam state: the public span and support fields together with the
four internal lists (beam.py lines 68 to 76). -/
structure Beam where
  x0 : ℚ
  x1 : ℚ
  fixed_support : ℚ
  rolling_support : ℚ
  loads : List Load
  distributed_forces : List PW3
  shear_forces : List ShearTerm
  bending_moments : List MomentTerm
deriving DecidableEq

/-- Beam construction (beam.py lines 58 to 76): the span argument is
stored unchecked, the supports default to 2 and 8, and all four lists
start empty. -/
def mkBeam (span : ℚ) : Beam :=
  { x0 := 0
    x1 := span
    fixed_support := 2
    rolling_support := 8
    loads := []
    distributed_forces := []
    shear_forces := []
    bending_moments := [] }

/-- Setter of fixed_support (beam.py lines 96 to 101): accepts a
coordinate inside the span and raises ValueError otherwise (none). -/
def setFixedSupport (b : Beam) (x_coord : ℚ) : Option Beam :=
  if b.x0 ≤ x_coord ∧ x_coord ≤ b.x1 then
    some { b with fixed_support := x_coord }
  else none

/-- Setter of rolling_support (beam.py lines 109 to 114). -/
def setRollingSupport (b : Beam) (x_coord : ℚ) : Option Beam :=
  if b.x0 ≤ x_coord ∧ x_coord ≤ b.x1 then
    some { b with rolling_support := x_coord }
  else none

/-- Generator point_loads of the source (beam.py lines 355 to 358):
the stored loads that are PointLoad instances, in order. -/
def pointLoads (b : Beam) : List PointLoad :=
  b.loads.filterMap fun l =>
    match l with
    | Load.point p => some p
    | Load.dist _ => none

/-- Generator distributed_loads of the source (beam.py lines 360 to
363): the stored loads that are DistributedLoad instances, in order. -/
def distributedLoads (b : Beam) : List DistributedLoad :=
  b.loads.filterMap fun l =>
    match l with
    | Load.point _ => none
    | Load.dist d => some d

/-- Body of create_distributed_force (beam.py lines 321 to 339).  Line
338 of the source evaluates expr.subs(x, x - x0) when shift is set but
never assigns the result (sympy expressions are immutable), so the
returned piecewise always carries the original expression in global beam
coordinates. -/
def create_distributed_force (load : DistributedLoad) (shift : Bool) : PW3 :=
  let expr := load.expr
  let x0 := load.span.1
  let x1 := load.span.2
  let _discarded := if shift then polySubShift expr x0 else expr
  { a := x0, b := x1, p := expr }

/-- Body of shear_from_pointload (beam.py lines 341 to 353): the step
Piecewise((0, x < coord), (value, True)). -/
def shear_from_pointload (load : PointLoad) : ShearTerm :=
  ShearTerm.step load.force load.coord

/-- Resultant vertical force of the applied loads (beam.py lines 153 to
154): the integrals of the distributed-force piecewise functions over
the full span plus the point-load force values. -/
def beamF_Ry (b : Beam) : ℚ :=
  (b.distributed_forces.map fun pw => pw3Integrate pw b.x0 b.x1).sum
    + ((pointLoads b).map fun f => f.force).sum

/-- Resultant moment of the applied loads about the origin (beam.py
lines 155 to 156): the integrals of x times the distributed-force
piecewise functions over the full span plus force times coordinate for
the point loads. -/
def beamM_R (b : Beam) : ℚ :=
  (b.distributed_forces.map fun pw => pw3IntegrateX pw b.x0 b.x1).sum
    + ((pointLoads b).map fun f => f.force * f.coord).sum

/-- Body of get_reaction_forces (beam.py lines 134 to 162).  The source
inverts the transposed matrix [[-1,0,0],[0,-1,-xA],[0,-1,-xB]] and
applies it to (F_Rx, F_Ry, M_R) with F_Rx = 0; in exact arithmetic that
matrix is singular exactly when xA = xB, in which case numpy raises
LinAlgError (none), and otherwise the unique solution is given by the
closed forms below (Cramer elimination of the 3x3 system). -/
def getReactionForces (b : Beam) : Option (ℚ × ℚ × ℚ) :=
  let xA := b.fixed_support
  let xB := b.rolling_support
  if xB - xA = 0 then none
  else
    some (0,
      (beamM_R b - xB * beamF_Ry b) / (xB - xA),
      (xA * beamF_Ry b - beamM_R b) / (xB - xA))

/-- Body of update_loads (beam.py lines 304 to 319): refresh the
distributed-force list, solve the reactions on the refreshed state, then
rebuild the shear list (distributed running integrals, then point-load
steps, then the fixed and rolling reaction steps) and the moment list
(running integrals of every shear term).  When the reaction solve raises,
the distributed-force list has already been reassigned and the shear and
moment lists keep their previous contents. -/
def updateLoads (b : Beam) : Beam × Option PyErr :=
  let b1 := { b with
    distributed_forces :=
      (distributedLoads b).map fun d => create_distributed_force d true }
  match getReactionForces b1 with
  | none => (b1, some PyErr.linAlgError)
  | some rf =>
      let shear :=
        (b1.distributed_forces.map fun pw => ShearTerm.fromDist b1.x0 pw)
          ++ ((pointLoads b1).map shear_from_pointload)
          ++ [shear_from_pointload { force := rf.2.1, coord := b1.fixed_support },
              shear_from_pointload { force := rf.2.2, coord := b1.rolling_support }]
      ({ b1 with
          shear_forces := shear
          bending_moments := shear.map fun s => { x0 := b1.x0, s := s } }, none)

/-- isinstance dispatch of the loop body of add_loads (beam.py line
128): PointLoad and DistributedLoad objects are recognised and stored,
anything else is not. -/
def classify : PyObj → Option Load
  | PyObj.pointLoad p => some (Load.point p)
  | PyObj.distributedLoad d => some (Load.dist d)
  | PyObj.pointTorque _ => none
  | PyObj.other => none

/-- Loop of add_loads (beam.py lines 127 to 131): append each recognised
load to the stored list; on the first unrecognised object raise TypeError
(flag true), keeping the appends already made. -/
def appendLoads : List Load → List PyObj → List Load × Bool
  | acc, [] => (acc, false)
  | acc, o :: os =>
      match classify o with
      | some l => appendLoads (acc ++ [l]) os
      | none => (acc, true)

/-- Body of add_loads (beam.py lines 116 to 132): run the append loop;
if it raised, the call fails with TypeError with the partial appends
kept and no recomputation; otherwise update_loads refreshes the derived
state (and may itself raise on coincident supports). -/
def addLoads (b : Beam) (objs : List PyObj) : Beam × Option PyErr :=
  let r := appendLoads b.loads objs
  let b1 := { b with loads := r.1 }
  if r.2 then (b1, some PyErr.typeError)
  else updateLoads b1

/-- Predicate: both supports of the beam lie inside the span. -/
def supportsWithinSpan (b : Beam) : Prop :=
  (b.x0 ≤ b.fixed_support ∧ b.fixed_support ≤ b.x1)
    ∧ (b.x0 ≤ b.rolling_support ∧ b.rolling_support ≤ b.x1)

instance (b : Beam) : Decidable (supportsWithinSpan b) := by
  unfold supportsWithinSpan
  infer_instance

/-- Beam of the doctest (beam.py lines 6 to 11): span 9, fixed support
at 2, rolling support at 7, a single point load of -20 at 3, with the
load application succeeding. -/
def beamC1 : Option Beam :=
  (setFixedSupport (mkBeam 9) 2).bind fun b1 =>
  (setRollingSupport b1 7).bind fun b2 =>
  match addLoads b2 [PyObj.pointLoad { force := -20, coord := 3 }] with
  | (b3, none) => some b3
  | (_, some _) => none

/-- The doctest beam after moving the fixed support to 3 through the
setter. -/
def beamC5 : Option Beam := beamC1.bind fun b3 => setFixedSupport b3 3

/-- State of a fresh span-9 beam after an add_loads call with the empty
list: the reactions of the unloaded beam are zero, so the rebuilt shear
list holds the two zero reaction steps. -/
def beamEmptyUpdated : Beam :=
  { x0 := 0
    x1 := 9
    fixed_support := 2
    rolling_support := 8
    loads := []
    distributed_forces := []
    shear_forces := [ShearTerm.step 0 2, ShearTerm.step 0 8]
    bending_moments := [{ x0 := 0, s := ShearTerm.step 0 2 },
                        { x0 := 0, s := ShearTerm.step 0 8 }] }

theorem updateLoads_frame (b : Beam) :
    (updateLoads b).1.x0 = b.x0 ∧ (updateLoads b).1.x1 = b.x1 ∧
    (updateLoads b).1.fixed_support = b.fixed_support ∧
    (updateLoads b).1.rolling_support = b.rolling_support ∧
    (updateLoads b).1.loads = b.loads := by
  dsimp only [updateLoads]
  split
  · exact ⟨rfl, rfl, rfl, rfl, rfl⟩
  · exact ⟨rfl, rfl, rfl, rfl, rfl⟩

theorem updateLoads_no_typeError (b : Beam) :
    (updateLoads b).2 ≠ some PyErr.typeError := by
  dsimp only [updateLoads]
  split
  · simp
  · simp

theorem appendLoads_all_valid (objs : List PyObj)
    (h : ∀ o ∈ objs, (classify o).isSome) (acc : List Load) :
    appendLoads acc objs = (acc ++ objs.filterMap classify, false) := by
  induction objs generalizing acc with
  | nil => simp [appendLoads]
  | cons o os ih =>
      obtain ⟨l, hl⟩ := Option.isSome_iff_exists.mp (h o (by simp))
      simp only [appendLoads, hl]
      rw [ih (fun q hq => h q (by simp [hq])) (acc ++ [l])]
      simp [List.filterMap_cons, hl]

theorem appendLoads_stops_at_invalid (pre : List PyObj) (o : PyObj) (rest : List PyObj)
    (hpre : ∀ p ∈ pre, (classify p).isSome) (ho : classify o = none)
    (acc : List Load) :
    appendLoads acc (pre ++ o :: rest) = (acc ++ pre.filterMap classify, true) := by
  induction pre generalizing acc with
  | nil => simp [appendLoads, ho]
  | cons p ps ih =>
      obtain ⟨l, hl⟩ := Option.isSome_iff_exists.mp (hpre p (by simp))
      rw [List.cons_append]
      simp only [appendLoads, hl]
      rw [ih (fun q hq => hpre q (by simp [hq])) (acc ++ [l])]
      simp [List.filterMap_cons, hl]

theorem appendLoads_raises (objs : List PyObj)
    (h : ∃ o ∈ objs, classify o = none) (acc : List Load) :
    (appendLoads acc objs).2 = true := by
  induction objs generalizing acc with
  | nil => simp at h
  | cons o os ih =>
      obtain ⟨q, hq, hqn⟩ := h
      rw [appendLoads]
      cases hcl : classify o with
      | none => rfl
      | some l =>
          have hqos : q ∈ os := by
            rcases List.mem_cons.mp hq with h1 | h1
            · rw [h1] at hqn; rw [hqn] at hcl; cases hcl
            · exact h1
          exact ih ⟨q, hqos, hqn⟩ (acc ++ [l])

theorem addLoads_frame (b : Beam) (objs : List PyObj) :
    (addLoads b objs).1.x0 = b.x0 ∧ (addLoads b objs).1.x1 = b.x1 ∧
    (addLoads b objs).1.fixed_support = b.fixed_support ∧
    (addLoads b objs).1.rolling_support = b.rolling_support := by
  dsimp only [addLoads]
  split
  · exact ⟨rfl, rfl, rfl, rfl⟩
  · obtain ⟨h0, h1, hf, hr, _⟩ :=
      updateLoads_frame { b with loads := (appendLoads b.loads objs).1 }
    exact ⟨h0, h1, hf, hr⟩

/-- Claim C1: for the beam of span 9 with fixed support at x=2, rolling
support at x=7 and a single PointLoad of force -20 at x=3,
get_reaction_forces returns exactly (F_Ax, F_Ay, F_By) = (0, 16, 4). -/
theorem reaction_forces_doctest :
    beamC1.map getReactionForces = some (some (0, 16, 4)) := by
  norm_num [beamC1, addLoads, appendLoads, classify, updateLoads, distributedLoads,
    pointLoads, getReactionForces, beamF_Ry, beamM_R, mkBeam, setFixedSupport,
    setRollingSupport, shear_from_pointload, List.filterMap_cons, List.filterMap_nil]

/-- Claim C8, counterexample: constructing a DistributedLoad with left=6
and right=2 succeeds (the namedtuple performs no validation), so the
claim that it fails with InvalidIntervalError is false. -/
theorem distributed_load_reversed_interval_cex :
    mkDistributedLoad [3] 6 2 = Except.ok { expr := [3], span := (6, 2) } := rfl

/-- Claim C8, amended: constructing a DistributedLoad never fails, for
any expression and any interval bounds, including left at least right;
no interval validation is performed. -/
theorem distributed_load_construction_total :
    ∀ (e : QPoly) (l r : ℚ),
      mkDistributedLoad e l r = Except.ok { expr := e, span := (l, r) } :=
  fun _ _ _ => rfl

/-- Claim C9: the piecewise function built from a DistributedLoad equals
the intensity expression on the closed interval (endpoints included) and
vanishes strictly outside it; for constant intensity 3 over the interval
from 2 to 6 it gives 0 at x=0, 3 at x=4, and 0 at x=8. -/
theorem distributed_force_piecewise_eval :
    (∀ (d : DistributedLoad) (x : ℚ),
        (d.span.1 ≤ x → x ≤ d.span.2 →
          pw3Eval (create_distributed_force d true) x = polyEval d.expr x) ∧
        (x < d.span.1 → pw3Eval (create_distributed_force d true) x = 0) ∧
        (d.span.2 < x → pw3Eval (create_distributed_force d true) x = 0)) ∧
    pw3Eval (create_distributed_force { expr := [3], span := (2, 6) } true) 0 = 0 ∧
    pw3Eval (create_distributed_force { expr := [3], span := (2, 6) } true) 4 = 3 ∧
    pw3Eval (create_distributed_force { expr := [3], span := (2, 6) } true) 8 = 0 := by
  refine ⟨fun d x => ⟨fun h1 h2 => ?_, fun h => ?_, fun h => ?_⟩, ?_, ?_, ?_⟩
  · rw [pw3Eval, create_distributed_force]
    rw [if_neg (not_lt.mpr h1), if_neg (not_lt.mpr h2)]
  · simp [pw3Eval, create_distributed_force, h]
  · simp [pw3Eval, create_distributed_force, h]
  · norm_num [pw3Eval, create_distributed_force, polyEval]
  · norm_num [pw3Eval, create_distributed_force, polyEval]
  · norm_num [pw3Eval, create_distributed_force, polyEval]

/-- Claim C9, witness: the general statement applied to the constant
load 3 over the interval from 2 to 6 at the interior point 4. -/
theorem distributed_force_piecewise_eval_applied :
    pw3Eval (create_distributed_force { expr := [3], span := (2, 6) } true) 4 =
      polyEval [3] 4 :=
  (distributed_force_piecewise_eval.1 { expr := [3], span := (2, 6) } 4).1
    (by norm_num) (by norm_num)

/-- Claim C10: create_distributed_force returns the same piecewise
object whatever the shift argument is, and the piecewise always carries
the original expression in global beam coordinates (the source evaluates
the rebasing substitution but discards its result). -/
theorem create_distributed_force_shift_noop :
    ∀ (d : DistributedLoad) (s : Bool),
      create_distributed_force d s = create_distributed_force d true ∧
      (create_distributed_force d s).p = d.expr :=
  fun _ _ => ⟨rfl, rfl⟩

/-- Claim C6, counterexample: a beam constructed with span 1 has its
default supports (2 and 8) outside the span interval from 0 to 1. -/
theorem default_supports_outside_small_span_cex :
    ¬ supportsWithinSpan (mkBeam 1) := by decide

/-- Claim C6, amended: the constructor places the default supports 2 and
8 without checking the span, so both supports lie within the span
immediately after construction exactly when the span is at least 8;
moreover the support setters and add_loads preserve the in-span
property. -/
theorem supports_within_span_conditions :
    (∀ s : ℚ, supportsWithinSpan (mkBeam s) ↔ 8 ≤ s) ∧
    (∀ (b : Beam) (x : ℚ) (b2 : Beam), setFixedSupport b x = some b2 →
        supportsWithinSpan b → supportsWithinSpan b2) ∧
    (∀ (b : Beam) (x : ℚ) (b2 : Beam), setRollingSupport b x = some b2 →
        supportsWithinSpan b → supportsWithinSpan b2) ∧
    (∀ (b : Beam) (objs : List PyObj), supportsWithinSpan b →
        supportsWithinSpan (addLoads b objs).1) := by
  refine ⟨fun s => ⟨fun hb => ?_, fun hs => ?_⟩, fun b x b2 h hb => ?_,
    fun b x b2 h hb => ?_, fun b objs hb => ?_⟩
  · exact hb.2.2
  · exact ⟨⟨by norm_num [mkBeam], by rw [mkBeam]; dsimp; linarith⟩,
      ⟨by norm_num [mkBeam], by rw [mkBeam]; dsimp; exact hs⟩⟩
  · by_cases hc : b.x0 ≤ x ∧ x ≤ b.x1
    · rw [setFixedSupport, if_pos hc] at h
      cases h
      exact ⟨⟨hc.1, hc.2⟩, hb.2⟩
    · rw [setFixedSupport, if_neg hc] at h
      cases h
  · by_cases hc : b.x0 ≤ x ∧ x ≤ b.x1
    · rw [setRollingSupport, if_pos hc] at h
      cases h
      exact ⟨hb.1, ⟨hc.1, hc.2⟩⟩
    · rw [setRollingSupport, if_neg hc] at h
      cases h
  · rw [supportsWithinSpan]
    obtain ⟨h0, h1, hf, hr⟩ := addLoads_frame b objs
    rw [h0, h1, hf, hr]
    exact hb

/-- Claim C6, witness: a beam of span 9 satisfies the in-span property
after construction. -/
theorem supports_within_span_conditions_applied :
    supportsWithinSpan (mkBeam 9) :=
  (supports_within_span_conditions.1 9).mpr (by norm_num)

/-- Claim C2: for every beam with distinct support coordinates,
get_reaction_forces returns a triple with zero horizontal reaction whose
vertical components balance the resultant force and the resultant moment
of the applied loads. -/
theorem get_reaction_forces_equilibrium (b : Beam)
    (h : b.fixed_support ≠ b.rolling_support) :
    ∃ F_Ax F_Ay F_By : ℚ,
      getReactionForces b = some (F_Ax, F_Ay, F_By) ∧ F_Ax = 0 ∧
      F_Ay + F_By = -(beamF_Ry b) ∧
      F_Ay * b.fixed_support + F_By * b.rolling_support = -(beamM_R b) := by
  have hd : b.rolling_support - b.fixed_support ≠ 0 := sub_ne_zero.mpr (Ne.symm h)
  refine ⟨0,
    (beamM_R b - b.rolling_support * beamF_Ry b) / (b.rolling_support - b.fixed_support),
    (b.fixed_support * beamF_Ry b - beamM_R b) / (b.rolling_support - b.fixed_support),
    ?_, rfl, ?_, ?_⟩
  · simp only [getReactionForces]
    rw [if_neg hd]
  · rw [div_add_div_same, div_eq_iff hd]
    ring
  · rw [div_mul_eq_mul_div, div_mul_eq_mul_div, div_add_div_same, div_eq_iff hd]
    ring

/-- Claim C2, witness: the equilibrium relations instantiated on a fresh
span-9 beam, whose supports 2 and 8 are distinct. -/
theorem get_reaction_forces_equilibrium_applied :
    ∃ F_Ax F_Ay F_By : ℚ,
      getReactionForces (mkBeam 9) = some (F_Ax, F_Ay, F_By) ∧ F_Ax = 0 ∧
      F_Ay + F_By = -(beamF_Ry (mkBeam 9)) ∧
      F_Ay * (mkBeam 9).fixed_support + F_By * (mkBeam 9).rolling_support =
        -(beamM_R (mkBeam 9)) :=
  get_reaction_forces_equilibrium (mkBeam 9) (by decide)

/-- Claim C5, counterexample: on the doctest beam, moving the fixed
support from 2 to 3 through the setter leaves the stored shear terms
unchanged (still the reaction step of 16 at coordinate 2), while a fresh
recomputation on the same state yields different terms; the stored
derived state does not reflect the new support coordinate. -/
theorem support_setter_stale_state_cex :
    (beamC5.map fun b => b.shear_forces) =
      some [ShearTerm.step (-20) 3, ShearTerm.step 16 2, ShearTerm.step 4 7] ∧
    (beamC5.map fun b => (updateLoads b).1.shear_forces) =
      some [ShearTerm.step (-20) 3, ShearTerm.step 20 3, ShearTerm.step 0 7] ∧
    [ShearTerm.step (-20) 3, ShearTerm.step 16 2, ShearTerm.step 4 7] ≠
      [ShearTerm.step (-20) 3, ShearTerm.step 20 3, ShearTerm.step 0 7] := by
  refine ⟨?_, ?_, by decide⟩
  · norm_num [beamC5, beamC1, addLoads, appendLoads, classify, updateLoads,
      distributedLoads, pointLoads, getReactionForces, beamF_Ry, beamM_R, mkBeam,
      setFixedSupport, setRollingSupport, shear_from_pointload,
      List.filterMap_cons, List.filterMap_nil]
  · norm_num [beamC5, beamC1, addLoads, appendLoads, classify, updateLoads,
      distributedLoads, pointLoads, getReactionForces, beamF_Ry, beamM_R, mkBeam,
      setFixedSupport, setRollingSupport, shear_from_pointload,
      List.filterMap_cons, List.filterMap_nil]

/-- Claim C5, amended: add_loads recomputes the derived state, but the
support setters do not: a successful setFixedSupport or
setRollingSupport call changes only the support coordinate and leaves
the stored distributed-force, shear-force and bending-moment lists
exactly as they were, stale until the next add_loads call. -/
theorem support_setters_keep_derived_state :
    (∀ (b : Beam) (x : ℚ) (b2 : Beam), setFixedSupport b x = some b2 →
        b2.distributed_forces = b.distributed_forces ∧
        b2.shear_forces = b.shear_forces ∧
        b2.bending_moments = b.bending_moments ∧ b2.loads = b.loads) ∧
    (∀ (b : Beam) (x : ℚ) (b2 : Beam), setRollingSupport b x = some b2 →
        b2.distributed_forces = b.distributed_forces ∧
        b2.shear_forces = b.shear_forces ∧
        b2.bending_moments = b.bending_moments ∧ b2.loads = b.loads) := by
  refine ⟨fun b x b2 h => ?_, fun b x b2 h => ?_⟩
  · by_cases hc : b.x0 ≤ x ∧ x ≤ b.x1
    · rw [setFixedSupport, if_pos hc] at h
      cases h
      exact ⟨rfl, rfl, rfl, rfl⟩
    · rw [setFixedSupport, if_neg hc] at h
      cases h
  · by_cases hc : b.x0 ≤ x ∧ x ≤ b.x1
    · rw [setRollingSupport, if_pos hc] at h
      cases h
      exact ⟨rfl, rfl, rfl, rfl⟩
    · rw [setRollingSupport, if_neg hc] at h
      cases h

/-- Claim C5, witness: moving the fixed support of a fresh span-9 beam
to 3 keeps every derived list unchanged. -/
theorem support_setters_keep_derived_state_applied :
    ({ mkBeam 9 with fixed_support := 3 } : Beam).distributed_forces =
        (mkBeam 9).distributed_forces ∧
      ({ mkBeam 9 with fixed_support := 3 } : Beam).shear_forces =
        (mkBeam 9).shear_forces ∧
      ({ mkBeam 9 with fixed_support := 3 } : Beam).bending_moments =
        (mkBeam 9).bending_moments ∧
      ({ mkBeam 9 with fixed_support := 3 } : Beam).loads = (mkBeam 9).loads :=
  support_setters_keep_derived_state.1 (mkBeam 9) 3
    { mkBeam 9 with fixed_support := 3 } (by decide)

/-- Claim C4, counterexample: adding a list whose second entry is not a
load object fails with TypeError, yet the first (valid) entry has
already been appended, so the load set is changed by the failed call. -/
theorem add_loads_partial_commit_cex :
    (addLoads (mkBeam 9)
        [PyObj.pointLoad { force := -20, coord := 3 }, PyObj.other]).2 =
      some PyErr.typeError ∧
    (addLoads (mkBeam 9)
        [PyObj.pointLoad { force := -20, coord := 3 }, PyObj.other]).1.loads =
      [Load.point { force := -20, coord := 3 }] ∧
    (mkBeam 9).loads = [] ∧
    [Load.point { force := -20, coord := 3 }] ≠ ([] : List Load) := by decide

/-- Claim C4, amended: add_loads is not atomic: when the collection
holds valid entries followed by an invalid one, the call fails with
TypeError but every valid entry before the first invalid one has
already been appended to the load set; the derived lists are not
recomputed. -/
theorem add_loads_commits_leading_valid (b : Beam) (pre : List PyObj) (o : PyObj)
    (rest : List PyObj) (hpre : ∀ p ∈ pre, (classify p).isSome)
    (ho : classify o = none) :
    (addLoads b (pre ++ o :: rest)).2 = some PyErr.typeError ∧
    (addLoads b (pre ++ o :: rest)).1.loads = b.loads ++ pre.filterMap classify ∧
    (addLoads b (pre ++ o :: rest)).1.distributed_forces = b.distributed_forces ∧
    (addLoads b (pre ++ o :: rest)).1.shear_forces = b.shear_forces ∧
    (addLoads b (pre ++ o :: rest)).1.bending_moments = b.bending_moments := by
  have happ := appendLoads_stops_at_invalid pre o rest hpre ho b.loads
  dsimp only [addLoads]
  rw [happ]
  exact ⟨rfl, rfl, rfl, rfl, rfl⟩

/-- Claim C4, witness: the amended statement applied to a point load
followed by an unrecognised object on a fresh span-9 beam. -/
theorem add_loads_commits_leading_valid_applied :
    (addLoads (mkBeam 9)
        [PyObj.pointLoad { force := -20, coord := 3 }, PyObj.other]).2 =
      some PyErr.typeError ∧
    (addLoads (mkBeam 9)
        [PyObj.pointLoad { force := -20, coord := 3 }, PyObj.other]).1.loads =
      (mkBeam 9).loads ++
        [PyObj.pointLoad { force := -20, coord := 3 }].filterMap classify ∧
    (addLoads (mkBeam 9)
        [PyObj.pointLoad { force := -20, coord := 3 }, PyObj.other]).1.distributed_forces =
      (mkBeam 9).distributed_forces ∧
    (addLoads (mkBeam 9)
        [PyObj.pointLoad { force := -20, coord := 3 }, PyObj.other]).1.shear_forces =
      (mkBeam 9).shear_forces ∧
    (addLoads (mkBeam 9)
        [PyObj.pointLoad { force := -20, coord := 3 }, PyObj.other]).1.bending_moments =
      (mkBeam 9).bending_moments :=
  add_loads_commits_leading_valid (mkBeam 9)
    [PyObj.pointLoad { force := -20, coord := 3 }] PyObj.other [] (by decide) rfl

/-- Claim C7, counterexample: a point-torque object passed to add_loads
is rejected by the isinstance check with TypeError and is not
incorporated, so the claim that add_loads accepts PointTorque entries is
false. -/
theorem add_loads_rejects_point_torque_cex :
    (addLoads (mkBeam 9)
        [PyObj.pointTorque { magnitude := 231, x_coord := 3 }]).2 =
      some PyErr.typeError ∧
    (addLoads (mkBeam 9)
        [PyObj.pointTorque { magnitude := 231, x_coord := 3 }]).1.loads = [] := by
  decide

/-- Claim C7, amended: add_loads accepts collections whose entries are
PointLoad or DistributedLoad objects only, incorporating all of them,
and fails with TypeError for any collection containing an entry of any
other kind, point torques included. -/
theorem add_loads_accepts_point_and_distributed_only :
    (∀ (b : Beam) (objs : List PyObj), (∀ o ∈ objs, (classify o).isSome) →
        (addLoads b objs).2 ≠ some PyErr.typeError ∧
        (addLoads b objs).1.loads = b.loads ++ objs.filterMap classify) ∧
    (∀ (b : Beam) (objs : List PyObj), (∃ o ∈ objs, classify o = none) →
        (addLoads b objs).2 = some PyErr.typeError) := by
  constructor
  · intro b objs h
    have happ := appendLoads_all_valid objs h b.loads
    dsimp only [addLoads]
    rw [happ]
    refine ⟨updateLoads_no_typeError _, ?_⟩
    exact (updateLoads_frame { b with loads := b.loads ++ objs.filterMap classify }).2.2.2.2
  · intro b objs h
    have happ := appendLoads_raises objs h b.loads
    dsimp only [addLoads]
    rw [happ, if_pos rfl]

/-- Claim C7, witness: a single point load is accepted and stored, while
a single point torque makes the call fail with TypeError. -/
theorem add_loads_accepts_point_and_distributed_only_applied :
    ((addLoads (mkBeam 9) [PyObj.pointLoad { force := -20, coord := 3 }]).2 ≠
        some PyErr.typeError ∧
      (addLoads (mkBeam 9) [PyObj.pointLoad { force := -20, coord := 3 }]).1.loads =
        (mkBeam 9).loads ++
          [PyObj.pointLoad { force := -20, coord := 3 }].filterMap classify) ∧
    (addLoads (mkBeam 9)
        [PyObj.pointTorque { magnitude := 231, x_coord := 3 }]).2 =
      some PyErr.typeError :=
  ⟨add_loads_accepts_point_and_distributed_only.1 (mkBeam 9)
      [PyObj.pointLoad { force := -20, coord := 3 }] (by decide),
    add_loads_accepts_point_and_distributed_only.2 (mkBeam 9)
      [PyObj.pointTorque { magnitude := 231, x_coord := 3 }]
      ⟨PyObj.pointTorque { magnitude := 231, x_coord := 3 }, by simp, rfl⟩⟩

/-- Claim C3: after a successful add_loads call the stored shear-force
terms are the running integrals of the distributed-force piecewise
functions followed by a step term for every stored point load and for
each of the two just-solved support reactions (a step being zero below
its coordinate and the signed force value at and above it), and the
stored bending-moment terms are the running integrals from x0 of the
shear-force terms. -/
theorem add_loads_rebuilds_shear_and_moments (b : Beam) (objs : List PyObj)
    (b2 : Beam) (h : addLoads b objs = (b2, none)) :
    ∃ rf : ℚ × ℚ × ℚ,
      getReactionForces b2 = some rf ∧
      b2.shear_forces =
        (b2.distributed_forces.map fun pw => ShearTerm.fromDist b2.x0 pw)
          ++ ((pointLoads b2).map shear_from_pointload)
          ++ [ShearTerm.step rf.2.1 b2.fixed_support,
              ShearTerm.step rf.2.2 b2.rolling_support] ∧
      (∀ v c x : ℚ, (x < c → shearEval (ShearTerm.step v c) x = 0) ∧
        (c ≤ x → shearEval (ShearTerm.step v c) x = v)) ∧
      b2.bending_moments = b2.shear_forces.map fun s => MomentTerm.mk b2.x0 s := by
  dsimp only [addLoads] at h
  split at h
  · exact Option.noConfusion (congrArg Prod.snd h)
  · dsimp only [updateLoads] at h
    split at h
    · exact Option.noConfusion (congrArg Prod.snd h)
    · rename_i rf heq
      have hb2 := congrArg Prod.fst h
      subst hb2
      refine ⟨rf, heq, rfl, ?_, rfl⟩
      intro v c x
      constructor
      · intro hx
        simp [shearEval, hx]
      · intro hx
        simp [shearEval, not_lt.mpr hx]

/-- Claim C3, witness: the structure of the rebuilt lists on a fresh
span-9 beam after an add_loads call with the empty list. -/
theorem add_loads_rebuilds_shear_and_moments_applied :
    ∃ rf : ℚ × ℚ × ℚ,
      getReactionForces beamEmptyUpdated = some rf ∧
      beamEmptyUpdated.shear_forces =
        (beamEmptyUpdated.distributed_forces.map fun pw =>
            ShearTerm.fromDist beamEmptyUpdated.x0 pw)
          ++ ((pointLoads beamEmptyUpdated).map shear_from_pointload)
          ++ [ShearTerm.step rf.2.1 beamEmptyUpdated.fixed_support,
              ShearTerm.step rf.2.2 beamEmptyUpdated.rolling_support] ∧
      (∀ v c x : ℚ, (x < c → shearEval (ShearTerm.step v c) x = 0) ∧
        (c ≤ x → shearEval (ShearTerm.step v c) x = v)) ∧
      beamEmptyUpdated.bending_moments =
        beamEmptyUpdated.shear_forces.map fun s =>
          MomentTerm.mk beamEmptyUpdated.x0 s :=
  add_loads_rebuilds_shear_and_moments (mkBeam 9) [] beamEmptyUpdated (by
    norm_num [addLoads, appendLoads, updateLoads, getReactionForces, beamF_Ry,
      beamM_R, pointLoads, distributedLoads, mkBeam, beamEmptyUpdated,
      shear_from_pointload, List.filterMap_nil])
